import Mathlib

/-!
Shallow embedding of `client.go` from ion-sdk-go (package `engine`).

The Go code drives a pair of WebRTC peer connections (publisher and
subscriber) against a signaling coordinator.  External collaborators
(the pion `webrtc` engine, the `Signal` handle, the `WebMProducer`)
are modelled by environment records that fix the outcome of each
fallible external call, and by an `Effect` trace that records, in
order, every observable call the client makes on them.  The `Client`
structure mirrors the mutable fields of the Go `Client` that the
modelled operations touch.
-/

set_option linter.unusedVariables false

namespace IonSdk

/-- Error values.  `errInvalidFile` is the package's unsupported-file-type
error; every other error produced by an external collaborator is wrapped
in `engine`. -/
inductive Err where
  | errInvalidFile : Err
  | engine (msg : String) : Err
deriving DecidableEq, Repr

/-- `webrtc.SessionDescription` (type and SDP body). -/
structure SessionDescription where
  sdpType : String
  sdp : String
deriving DecidableEq, Repr

/-- `webrtc.ICECandidate` (a locally generated candidate). -/
structure ICECandidate where
  candidate : String
deriving DecidableEq, Repr

/-- `webrtc.ICECandidateInit` (a candidate received from the remote side). -/
structure ICECandidateInit where
  candidate : String
deriving DecidableEq, Repr

/-- A local track handed to `AddTrack`; opaque, identified by a string. -/
abbrev TrackLocal := String

/-- `webrtc.DataChannelState`. -/
inductive DataChannelState where
  | Connecting | Open | Closing | Closed
deriving DecidableEq, Repr

/-- The two negotiation legs. -/
inductive Leg where
  | pub | sub
deriving DecidableEq, Repr

/-- `PUBLISHER = 0` in client.go. -/
def PUBLISHER : Nat := 0

/-- `SUBSCRIBER = 1` in client.go. -/
def SUBSCRIBER : Nat := 1

/-- `Call` — the data-channel api command (`streamId`, `video`, `audio`). -/
structure Call where
  StreamID : String
  Video : String
  Audio : Bool
deriving DecidableEq, Repr

/-- `TrackState` — `TrackNone = 0`, `TrackAdd = 1`, `TrackRemove = 2`. -/
inductive TrackState where
  | TrackNone | TrackAdd | TrackRemove
deriving DecidableEq, Repr

/-- `Simulcast` info. -/
structure Simulcast where
  Rid : String
  Direction : String
  Parameters : String
deriving DecidableEq, Repr

/-- `Track` info. -/
structure Track where
  ID : String
  StreamID : String
  Kind : String
  Muted : Bool
  Simulcast : List Simulcast
deriving DecidableEq, Repr

/-- `TrackEvent` info. -/
structure TrackEvent where
  State : TrackState
  Uid : String
  Tracks : List Track
deriving DecidableEq, Repr

/-- One observable call on an external collaborator (engine, signal,
data channel, producer, log), in the order the Go code performs them. -/
inductive Effect where
  | setRemoteDescription (leg : Leg) (sdp : SessionDescription)
  | signalTrickle (cand : ICECandidate) (target : Nat)
  | addICECandidate (leg : Leg) (cand : ICECandidateInit)
  | createAnswer (leg : Leg)
  | createOffer (leg : Leg)
  | setLocalDescription (leg : Leg) (sdp : SessionDescription)
  | signalAnswer (sdp : SessionDescription)
  | signalOffer (sdp : SessionDescription)
  | signalJoin (sid uid : String) (offer : SessionDescription)
  | dcSend (cmd : Call)
  | signalSubscribe (trackIds : List String) (enabled : Bool)
  | userTrackEvent (event : TrackEvent)
  | addTrack (t : TrackLocal)
  | newWebMProducer (file : String)
  | producerStart
  | logged (e : Err)
deriving DecidableEq, Repr

/-- The mutable state of one `Transport`: the peer connection's current
remote description, the outbound-pending (`SendCandidates`) and
inbound-pending (`RecvCandidates`) buffers, and (subscriber only) the
api data channel once arrived, abstracted to its ready state. -/
structure Transport where
  currentRemoteDescription : Option SessionDescription := none
  SendCandidates : List ICECandidate := []
  RecvCandidates : List ICECandidateInit := []
  api : Option DataChannelState := none
deriving DecidableEq, Repr

/-- The mutable fields of the Go `Client` touched by the modelled
operations.  `hasOnTrackEvent` is whether `c.OnTrackEvent != nil`;
`producer` holds the file the `WebMProducer` was built from. -/
structure Client where
  uid : String := ""
  sid : String := ""
  pub : Transport := {}
  sub : Transport := {}
  hasOnTrackEvent : Bool := false
  producer : Option String := none
  recvByte : Nat := 0
  apiQueue : List Call := []
deriving DecidableEq, Repr

/-- Effects a logged error produces (Go `log.Errorf` on non-nil err). -/
def logFx : Option Err → List Effect
  | some e => [Effect.logged e]
  | none => []

/-! ### trickle (client.go lines 240-258) -/

/-- Outcome of the one fallible external call `trickle` makes. -/
structure TrickleEnv where
  addICECandidateErr : Option Err

/-- `Client.trickle`: candidate from the sfu.  Picks `c.sub` when
`target == SUBSCRIBER`, else `c.pub`; buffers the candidate into
`RecvCandidates` while the peer connection has no current remote
description, otherwise calls `AddICECandidate` and only logs a failure. -/
def trickle (env : TrickleEnv) (c : Client) (candidate : ICECandidateInit)
    (target : Nat) : Client × List Effect :=
  if target = SUBSCRIBER then
    if c.sub.currentRemoteDescription = none then
      ({ c with sub :=
          { c.sub with RecvCandidates := c.sub.RecvCandidates ++ [candidate] } }, [])
    else
      (c, Effect.addICECandidate Leg.sub candidate :: logFx env.addICECandidateErr)
  else
    if c.pub.currentRemoteDescription = none then
      ({ c with pub :=
          { c.pub with RecvCandidates := c.pub.RecvCandidates ++ [candidate] } }, [])
    else
      (c, Effect.addICECandidate Leg.pub candidate :: logFx env.addICECandidateErr)

/-! ### negotiate (client.go lines 261-306) -/

/-- Outcomes of the fallible external calls `negotiate` makes. -/
structure NegotiateEnv where
  setRemoteDescriptionErr : Option Err
  createAnswer : Except Err SessionDescription
  setLocalDescriptionErr : Option Err

/-- `Client.negotiate`: subscriber-leg answer to a coordinator offer.
Steps, in source order: set remote description (abort on failure);
send every buffered `SendCandidates` to the sfu and clear the buffer;
add every buffered `RecvCandidates` to the pc (errors discarded) and
clear the buffer; create an answer (abort on failure); set it as local
description (abort on failure); send the answer to the sfu. -/
def negotiate (env : NegotiateEnv) (c : Client) (sdp : SessionDescription) :
    Client × List Effect × Option Err :=
  match env.setRemoteDescriptionErr with
  | some e =>
      (c, [Effect.setRemoteDescription Leg.sub sdp,
           Effect.logged e], some e)
  | none =>
    let c1 : Client :=
      { c with sub := { c.sub with currentRemoteDescription := some sdp } }
    let sendFx := c1.sub.SendCandidates.map
      (fun cand => Effect.signalTrickle cand SUBSCRIBER)
    let c2 : Client :=
      if c1.sub.SendCandidates.length > 0 then
        { c1 with sub := { c1.sub with SendCandidates := [] } }
      else c1
    let recvFx := c2.sub.RecvCandidates.map
      (fun cand => Effect.addICECandidate Leg.sub cand)
    let c3 : Client :=
      if c2.sub.RecvCandidates.length > 0 then
        { c2 with sub := { c2.sub with RecvCandidates := [] } }
      else c2
    match env.createAnswer with
    | Except.error e =>
        (c3, Effect.setRemoteDescription Leg.sub sdp :: sendFx ++ recvFx ++
             [Effect.createAnswer Leg.sub, Effect.logged e], some e)
    | Except.ok answer =>
      match env.setLocalDescriptionErr with
      | some e =>
          (c3, Effect.setRemoteDescription Leg.sub sdp :: sendFx ++ recvFx ++
               [Effect.createAnswer Leg.sub,
                Effect.setLocalDescription Leg.sub answer,
                Effect.logged e], some e)
      | none =>
          (c3, Effect.setRemoteDescription Leg.sub sdp :: sendFx ++ recvFx ++
               [Effect.createAnswer Leg.sub,
                Effect.setLocalDescription Leg.sub answer,
                Effect.signalAnswer answer], none)

/-! ### selectRemote (client.go lines 327-370) and the dc OnOpen flush
(client.go lines 129-145, registered in `Join`) -/

/-- Outcome of `c.sub.api.Send` per command (`json.Marshal` of a `Call`
cannot fail in Go, so it is modelled as the identity on the command). -/
structure SelectRemoteEnv where
  sendErr : Call → Option Err

/-- `Client.selectRemote`: builds a `Call` from the arguments; if the api
data channel is absent or not open, appends it to `apiQueue` and returns
nil; otherwise first sends every queued command (send failures logged,
flush continues) and clears the queue, then sends this command, returning
that send's error. -/
def selectRemote (env : SelectRemoteEnv) (c : Client) (streamId vlayer : String)
    ( audio : Bool) : Client × List Effect × Option Err :=
  let call : Call := { StreamID := streamId, Video := vlayer, Audio := audio }
  if c.sub.api = some DataChannelState.Open then
    let flushFx := (c.apiQueue.map fun cmd =>
      Effect.dcSend cmd :: logFx (env.sendErr cmd)).flatten
    let c1 : Client := if c.apiQueue.length > 0 then { c with apiQueue := [] } else c
    (c1, flushFx ++ Effect.dcSend call :: logFx (env.sendErr call), env.sendErr call)
  else
    ({ c with apiQueue := c.apiQueue ++ [call] }, [], none)

/-- The `c.sub.api.OnOpen` handler registered in `Client.Join`: when the
queue is non-empty, sends every queued command in order (send failures
logged, flush continues) and clears the queue. -/
def onOpenFlush (env : SelectRemoteEnv) (c : Client) : Client × List Effect :=
  if c.apiQueue.length > 0 then
    ({ c with apiQueue := [] },
     (c.apiQueue.map fun cmd => Effect.dcSend cmd :: logFx (env.sendErr cmd)).flatten)
  else (c, [])

/-! ### Join (client.go lines 89-177, offer steps at 161-176) -/

/-- Outcomes of the fallible external calls the offer part of `Join` makes. -/
structure JoinEnv where
  createOffer : Except Err SessionDescription
  setLocalDescriptionErr : Option Err
  signalJoinErr : Option Err

/-- The offer/join step sequence of `Client.Join` (the callback
registrations earlier in `Join` are modelled separately: the dc OnOpen
flush as `onOpenFlush`, the track sink as byte accumulation in
`recvByte`): create offer on the publisher pc (abort on failure), set it
as local description (abort on failure), send the join request
`(sid, uid, offer)` via the signal, returning its error. -/
def Join (env : JoinEnv) (c : Client) (sid : String) :
    List Effect × Option Err :=
  match env.createOffer with
  | Except.error e => ([Effect.createOffer Leg.pub], some e)
  | Except.ok offer =>
    match env.setLocalDescriptionErr with
    | some e =>
        ([Effect.createOffer Leg.pub,
          Effect.setLocalDescription Leg.pub offer], some e)
    | none =>
        ([Effect.createOffer Leg.pub,
          Effect.setLocalDescription Leg.pub offer,
          Effect.signalJoin sid c.uid offer], env.signalJoinErr)

/-! ### onNegotiationNeeded (client.go lines 309-324), Publish (198-208) -/

/-- Outcomes of the fallible external calls `onNegotiationNeeded` makes. -/
structure OnnEnv where
  createOffer : Except Err SessionDescription
  setLocalDescriptionErr : Option Err

/-- The offer value `onNegotiationNeeded` works with: the created offer
on success, the Go zero value of `webrtc.SessionDescription` when
`CreateOffer` failed (the error is only logged, `offer` keeps its zero
value and the function carries on). -/
def onnOffer (env : OnnEnv) : SessionDescription :=
  match env.createOffer with
  | Except.ok o => o
  | Except.error _ => { sdpType := "", sdp := "" }

/-- Effects logging a `CreateOffer` failure produces in
`onNegotiationNeeded`. -/
def onnCreateLog (env : OnnEnv) : List Effect :=
  match env.createOffer with
  | Except.ok _ => []
  | Except.error e => [Effect.logged e]

/-- `Client.onNegotiationNeeded`: create offer on the publisher pc
(failure logged, not returned — the function has no return value), set
local description (failure logged), then send the offer to the sfu
unconditionally. -/
def onNegotiationNeeded (env : OnnEnv) (c : Client) : List Effect :=
  Effect.createOffer Leg.pub :: onnCreateLog env ++
  Effect.setLocalDescription Leg.pub (onnOffer env) ::
  logFx env.setLocalDescriptionErr ++
  [Effect.signalOffer (onnOffer env)]

/-- Outcomes of the fallible external calls `Publish` makes. -/
structure PublishEnv where
  addTrackErr : TrackLocal → Option Err
  onn : OnnEnv

/-- The `for _, t := range tracks` loop of `Client.Publish`: `AddTrack`
each track, returning the first failure. -/
def publishLoop (env : PublishEnv) : List TrackLocal → List Effect × Option Err
  | [] => ([], none)
  | t :: rest =>
    match env.addTrackErr t with
    | some e => ([Effect.addTrack t, Effect.logged e], some e)
    | none =>
      let r := publishLoop env rest
      (Effect.addTrack t :: r.1, r.2)

/-- `Client.Publish`: `AddTrack` every track, aborting with the first
error; on success run `onNegotiationNeeded` and return nil. -/
def Publish (env : PublishEnv) (c : Client) (tracks : List TrackLocal) :
    List Effect × Option Err :=
  match publishLoop env tracks with
  | (fx, some e) => (fx, some e)
  | (fx, none) => (fx ++ onNegotiationNeeded env.onn c, none)

/-! ### PublishFile (client.go lines 395-423) -/

/-- Go's `filepath.Ext` on a reversed character list: scan from the end,
stop at a path separator, return from the final dot. -/
def extGoAux : List Char → List Char → String
  | [], _ => ""
  | ch :: rest, acc =>
    if ch = '/' then ""
    else if ch = '.' then String.mk ('.' :: acc)
    else extGoAux rest (ch :: acc)

/-- Go's `filepath.Ext`: the suffix beginning at the final dot in the
final slash-separated element of the path; empty if there is no dot. -/
def filepathExt (path : String) : String :=
  extGoAux path.data.reverse []

/-- Outcomes of the fallible external calls `PublishFile` makes. -/
structure PublishFileEnv where
  getVideoTrack : Except Err TrackLocal
  getAudioTrack : Except Err TrackLocal
  addTrackErr : TrackLocal → Option Err
  onn : OnnEnv

/-- The Go zero value a track variable keeps when the producer getter
fails (its error is immediately overwritten by the `AddTrack` result). -/
def zeroTrack : TrackLocal := ""

/-- The track value `PublishFile` passes to `AddTrack` for the video leg. -/
def pfVideoTrack (env : PublishFileEnv) : TrackLocal :=
  match env.getVideoTrack with
  | Except.ok t => t
  | Except.error _ => zeroTrack

/-- The track value `PublishFile` passes to `AddTrack` for the audio leg. -/
def pfAudioTrack (env : PublishFileEnv) : TrackLocal :=
  match env.getAudioTrack with
  | Except.ok t => t
  | Except.error _ => zeroTrack

/-- The audio branch and tail of `PublishFile`: optionally add the audio
track (aborting on `AddTrack` failure), then start the producer and run
`onNegotiationNeeded`. -/
def publishFileTail (env : PublishFileEnv) (c : Client) (fx : List Effect)
    ( audio : Bool) : Client × List Effect × Option Err :=
  if audio then
    match env.addTrackErr (pfAudioTrack env) with
    | some e =>
        (c, fx ++ [Effect.addTrack (pfAudioTrack env), Effect.logged e], some e)
    | none =>
        (c, fx ++ Effect.addTrack (pfAudioTrack env) :: Effect.producerStart ::
            onNegotiationNeeded env.onn c, none)
  else
    (c, fx ++ Effect.producerStart :: onNegotiationNeeded env.onn c, none)

/-- `Client.PublishFile`: dispatch on `filepath.Ext(file)` — only
`".webm"` constructs a `WebMProducer`, any other extension returns
`errInvalidFile` with no side effect.  For each requested kind, get the
producer track (the getter's error is discarded, overwritten by the
`AddTrack` result) and `AddTrack` it, aborting on `AddTrack` failure;
then start the producer and trigger renegotiation by hand. -/
def PublishFile (env : PublishFileEnv) (c : Client) (file : String)
    (video audio : Bool) : Client × List Effect × Option Err :=
  if filepathExt file = ".webm" then
    let c1 : Client := { c with producer := some file }
    if video then
      match env.addTrackErr (pfVideoTrack env) with
      | some e =>
          (c1, [Effect.newWebMProducer file,
                Effect.addTrack (pfVideoTrack env), Effect.logged e], some e)
      | none =>
          publishFileTail env c1
            [Effect.newWebMProducer file, Effect.addTrack (pfVideoTrack env)] audio
    else
      publishFileTail env c1 [Effect.newWebMProducer file] audio
  else
    (c, [], some Err.errInvalidFile)

/-! ### trackEvent (client.go lines 444-462) -/

/-- The default `OnTrackEvent` handler installed by `trackEvent` when the
user supplied none: on a `TrackAdd` event, collect the event's track ids
in order and `Subscribe` to them with `enabled = true`; no action
otherwise. -/
def defaultTrackEventFx (event : TrackEvent) : List Effect :=
  if event.State = TrackState.TrackAdd then
    [Effect.signalSubscribe (event.Tracks.map Track.ID) true]
  else []

/-- `Client.trackEvent`: if a user handler is registered, deliver the
event to it; otherwise install the default handler and run it. -/
def trackEvent (c : Client) (event : TrackEvent) : Client × List Effect :=
  if c.hasOnTrackEvent then
    (c, [Effect.userTrackEvent event])
  else
    ({ c with hasOnTrackEvent := true }, defaultTrackEventFx event)

/-! ### getBandWidth (client.go lines 503-512) -/

/-- `Client.getBandWidth`: query the producer's send bandwidth when a
producer exists, compute `recvByte / cycle / 1000` (Go integer division
— a runtime fault, modelled as `none`, when `cycle = 0`), reset
`recvByte` to zero, and return `(recvBW, sendBW)` with the new state. -/
def getBandWidth (producerSendBW : Nat → Nat) (c : Client) (cycle : Nat) :
    Option (Client × Nat × Nat) :=
  if cycle = 0 then none
  else
    let sendBW := match c.producer with
      | some _ => producerSendBW cycle
      | none => 0
    some ({ c with recvByte := 0 }, c.recvByte / cycle / 1000, sendBW)

/-! ## Theorems -/

/-- C2: an inbound candidate delivered to `trickle` with any target is
buffered into the target transport's `RecvCandidates` and not applied
when that transport's pc has no current remote description; otherwise it
is applied immediately, a failure only being logged (state unchanged, no
error propagated).  Hence an `addICECandidate` effect on a leg implies
that leg's pc already had a remote description. -/
theorem trickle_buffers_or_applies (env : TrickleEnv) (c : Client)
    (cand : ICECandidateInit) (target : Nat) :
    (target = SUBSCRIBER → c.sub.currentRemoteDescription = none →
      trickle env c cand target =
        ({ c with sub :=
            { c.sub with RecvCandidates := c.sub.RecvCandidates ++ [cand] } }, []))
  ∧ (target ≠ SUBSCRIBER → c.pub.currentRemoteDescription = none →
      trickle env c cand target =
        ({ c with pub :=
            { c.pub with RecvCandidates := c.pub.RecvCandidates ++ [cand] } }, []))
  ∧ (target = SUBSCRIBER → c.sub.currentRemoteDescription ≠ none →
      trickle env c cand target =
        (c, Effect.addICECandidate Leg.sub cand :: logFx env.addICECandidateErr))
  ∧ (target ≠ SUBSCRIBER → c.pub.currentRemoteDescription ≠ none →
      trickle env c cand target =
        (c, Effect.addICECandidate Leg.pub cand :: logFx env.addICECandidateErr))
  ∧ (∀ cd, Effect.addICECandidate Leg.sub cd ∈ (trickle env c cand target).2 →
      c.sub.currentRemoteDescription ≠ none)
  ∧ (∀ cd, Effect.addICECandidate Leg.pub cd ∈ (trickle env c cand target).2 →
      c.pub.currentRemoteDescription ≠ none) := by
  refine ⟨?_, ?_, ?_, ?_, ?_, ?_⟩
  · intro ht hs; simp [trickle, ht, hs]
  · intro ht hp; simp [trickle, ht, hp]
  · intro ht hs; simp [trickle, ht, hs]
  · intro ht hp; simp [trickle, ht, hp]
  · intro cd hmem hs
    by_cases ht : target = SUBSCRIBER
    · simp [trickle, ht, hs] at hmem
    · by_cases hp : c.pub.currentRemoteDescription = none
      · simp [trickle, ht, hp] at hmem
      · cases henv : env.addICECandidateErr <;>
          simp [trickle, ht, hp, logFx, henv] at hmem
  · intro cd hmem hp
    by_cases ht : target = SUBSCRIBER
    · by_cases hs : c.sub.currentRemoteDescription = none
      · simp [trickle, ht, hs] at hmem
      · cases henv : env.addICECandidateErr <;>
          simp [trickle, ht, hs, logFx, henv] at hmem
    · simp [trickle, ht, hp] at hmem

/-- Witness for C2 at a concrete input: a candidate arriving for the
subscriber leg before any remote description is buffered, not applied. -/
theorem trickle_buffers_or_applies_witness :
    trickle ⟨none⟩ ({ uid := "u1" } : Client) ⟨"cand0"⟩ SUBSCRIBER =
      ({ uid := "u1", sub := { RecvCandidates := [⟨"cand0"⟩] } }, []) := by
  have h := (trickle_buffers_or_applies ⟨none⟩ ({ uid := "u1" } : Client)
      ⟨"cand0"⟩ SUBSCRIBER).1 rfl rfl
  simpa using h

/-- C1: `negotiate` with a remote offer: when setting the remote
description fails, only that call (and its log) happened, the buffers
are untouched and the error is returned; when every engine call
succeeds, the trace is exactly: set remote description, then every
buffered outbound-pending candidate sent to the coordinator in order,
then every buffered inbound-pending candidate applied in order, then
create answer, set it as local description, and send it to the
coordinator — with both subscriber buffers cleared in the final state. -/
theorem negotiate_order (env : NegotiateEnv) (c : Client)
    (sdp : SessionDescription) :
    (∀ e, env.setRemoteDescriptionErr = some e →
      negotiate env c sdp =
        (c, [Effect.setRemoteDescription Leg.sub sdp, Effect.logged e], some e))
  ∧ (∀ ans, env.setRemoteDescriptionErr = none →
      env.createAnswer = Except.ok ans → env.setLocalDescriptionErr = none →
      negotiate env c sdp =
        ({ c with sub := { c.sub with
             currentRemoteDescription := some sdp,
             SendCandidates := [],
             RecvCandidates := [] } },
         Effect.setRemoteDescription Leg.sub sdp ::
           (c.sub.SendCandidates.map
              (fun cand => Effect.signalTrickle cand SUBSCRIBER) ++
            c.sub.RecvCandidates.map
              (fun cand => Effect.addICECandidate Leg.sub cand) ++
            [Effect.createAnswer Leg.sub,
             Effect.setLocalDescription Leg.sub ans,
             Effect.signalAnswer ans]),
         none)) := by
  constructor
  · intro e he
    simp [negotiate, he]
  · intro ans h0 h1 h2
    obtain ⟨uid, sid, pub, sub, hot, prod, rb, q⟩ := c
    obtain ⟨crd, sendC, recvC, api⟩ := sub
    cases sendC <;> cases recvC <;>
      simp [negotiate, h0, h1, h2]

/-- Witness for C1 at a concrete input: one buffered outbound and one
buffered inbound candidate, all engine calls succeeding. -/
theorem negotiate_order_witness :
    negotiate ⟨none, Except.ok ⟨"answer", "va"⟩, none⟩
      ({ uid := "u1",
         sub := { SendCandidates := [⟨"s0"⟩], RecvCandidates := [⟨"r0"⟩] } } : Client)
      ⟨"offer", "vo"⟩ =
      ({ uid := "u1",
         sub := { currentRemoteDescription := some ⟨"offer", "vo"⟩ } },
       [Effect.setRemoteDescription Leg.sub ⟨"offer", "vo"⟩,
        Effect.signalTrickle ⟨"s0"⟩ SUBSCRIBER,
        Effect.addICECandidate Leg.sub ⟨"r0"⟩,
        Effect.createAnswer Leg.sub,
        Effect.setLocalDescription Leg.sub ⟨"answer", "va"⟩,
        Effect.signalAnswer ⟨"answer", "va"⟩],
       none) := by
  have h := (negotiate_order ⟨none, Except.ok ⟨"answer", "va"⟩, none⟩
      ({ uid := "u1",
         sub := { SendCandidates := [⟨"s0"⟩], RecvCandidates := [⟨"r0"⟩] } } : Client)
      ⟨"offer", "vo"⟩).2 ⟨"answer", "va"⟩ rfl rfl rfl
  simpa using h

/-- C8: one bandwidth sample with a nonzero cycle returns
`recvByte / cycle / 1000` as the receive bandwidth, resets `recvByte` to
zero, and a second sample with no intervening data returns zero. -/
theorem getBandWidth_sample (f : Nat → Nat) (c : Client) (cycle : Nat)
    (h : cycle ≠ 0) :
    getBandWidth f c cycle =
      some ({ c with recvByte := 0 }, c.recvByte / cycle / 1000,
            match c.producer with | some _ => f cycle | none => 0)
  ∧ (getBandWidth f { c with recvByte := 0 } cycle).map (fun r => r.2.1) =
      some 0 := by
  constructor
  · simp [getBandWidth, h]
  · simp [getBandWidth, h]

/-- Witness for C8 at a concrete input: 6000 bytes sampled at cycle 2
give 3, then a second sample gives 0. -/
theorem getBandWidth_sample_witness :
    getBandWidth (fun _ => 7) ({ recvByte := 6000 } : Client) 2 =
      some ({ recvByte := 0 }, 3, 0)
  ∧ (getBandWidth (fun _ => 7)
      { ({ recvByte := 6000 } : Client) with recvByte := 0 } 2).map
        (fun r => r.2.1) = some 0 := by
  have h := getBandWidth_sample (fun _ => 7) ({ recvByte := 6000 } : Client) 2
    (by decide)
  simpa using h

/-- C9: `getBandWidth` divides by `cycle` with no guard: at `cycle = 0`
the division faults (modelled as `none`), and for every nonzero cycle
the operation completes. -/
theorem getBandWidth_div_guard (f : Nat → Nat) (c : Client) :
    getBandWidth f c 0 = none
  ∧ ∀ cycle : Nat, cycle ≠ 0 → (getBandWidth f c cycle).isSome = true := by
  constructor
  · simp [getBandWidth]
  · intro cycle h
    simp [getBandWidth, h]

/-- Witness for C9 at a concrete input. -/
theorem getBandWidth_div_guard_witness :
    getBandWidth (fun _ => 0) ({ } : Client) 0 = none
  ∧ (getBandWidth (fun _ => 0) ({ } : Client) 3).isSome = true :=
  ⟨(getBandWidth_div_guard (fun _ => 0) ({ } : Client)).1,
   (getBandWidth_div_guard (fun _ => 0) ({ } : Client)).2 3 (by decide)⟩

/-- C3: `selectRemote` with the control channel absent or not open
queues the command and returns nil with nothing sent; with the channel
open it first sends every queued command in submission order (each send
logged on failure), then the new command, and leaves the queue empty;
and the channel's OnOpen handler sends every queued command in
submission order and leaves the queue empty. -/
theorem selectRemote_queue_and_flush (env : SelectRemoteEnv) (c : Client)
    (streamId vlayer : String) ( audio : Bool) :
    (¬ c.sub.api = some DataChannelState.Open →
      selectRemote env c streamId vlayer audio =
        ({ c with apiQueue := c.apiQueue ++
            [{ StreamID := streamId, Video := vlayer, Audio := audio }] },
         [], none))
  ∧ (c.sub.api = some DataChannelState.Open →
      selectRemote env c streamId vlayer audio =
        ({ c with apiQueue := [] },
         (c.apiQueue.map fun cmd =>
            Effect.dcSend cmd :: logFx (env.sendErr cmd)).flatten ++
           Effect.dcSend { StreamID := streamId, Video := vlayer, Audio := audio } ::
           logFx (env.sendErr
             { StreamID := streamId, Video := vlayer, Audio := audio }),
         env.sendErr { StreamID := streamId, Video := vlayer, Audio := audio }))
  ∧ onOpenFlush env c =
      ({ c with apiQueue := [] },
       (c.apiQueue.map fun cmd =>
          Effect.dcSend cmd :: logFx (env.sendErr cmd)).flatten) := by
  obtain ⟨uid, sid, pub, sub, hot, prod, rb, q⟩ := c
  refine ⟨?_, ?_, ?_⟩
  · intro hapi
    simp only [Client.sub] at hapi
    simp [selectRemote, hapi]
  · intro hapi
    simp only [Client.sub] at hapi
    cases q <;> simp [selectRemote, hapi]
  · cases q <;> simp [onOpenFlush]

/-- Witness for C3 at a concrete input: one command queued while the
channel is open is flushed before the newly submitted command. -/
theorem selectRemote_queue_and_flush_witness :
    selectRemote ⟨fun _ => none⟩
      ({ sub := { api := some DataChannelState.Open },
         apiQueue := [{ StreamID := "str0", Video := "low", Audio := false }] } :
        Client)
      "str1" "high" true =
      ({ sub := { api := some DataChannelState.Open } },
       [Effect.dcSend { StreamID := "str0", Video := "low", Audio := false },
        Effect.dcSend { StreamID := "str1", Video := "high", Audio := true }],
       none) := by
  have h := (selectRemote_queue_and_flush ⟨fun _ => none⟩
      ({ sub := { api := some DataChannelState.Open },
         apiQueue := [{ StreamID := "str0", Video := "low", Audio := false }] } :
        Client)
      "str1" "high" true).2.1 rfl
  simpa [logFx] using h

/-- C4: `Join` creates an offer on the publisher pc, sets it as local
description, and sends the join request `(sid, uid, offer)`, in that
order; a failing step returns its error and nothing after it happens —
in particular a failed offer creation sets and sends nothing. -/
theorem Join_steps (env : JoinEnv) (c : Client) (sid : String) :
    (∀ e, env.createOffer = Except.error e →
      Join env c sid = ([Effect.createOffer Leg.pub], some e))
  ∧ (∀ offer e, env.createOffer = Except.ok offer →
      env.setLocalDescriptionErr = some e →
      Join env c sid =
        ([Effect.createOffer Leg.pub,
          Effect.setLocalDescription Leg.pub offer], some e))
  ∧ (∀ offer, env.createOffer = Except.ok offer →
      env.setLocalDescriptionErr = none →
      Join env c sid =
        ([Effect.createOffer Leg.pub,
          Effect.setLocalDescription Leg.pub offer,
          Effect.signalJoin sid c.uid offer], env.signalJoinErr)) := by
  refine ⟨?_, ?_, ?_⟩
  · intro e he
    simp [Join, he]
  · intro offer e ho he
    simp [Join, ho, he]
  · intro offer ho he
    simp [Join, ho, he]

/-- Witness for C4 at concrete inputs: the successful join for
`(sid = "s1", uid = "u1")`, and the aborted join when offer creation
fails. -/
theorem Join_steps_witness :
    Join ⟨Except.ok ⟨"offer", "vo"⟩, none, none⟩ ({ uid := "u1" } : Client) "s1" =
      ([Effect.createOffer Leg.pub,
        Effect.setLocalDescription Leg.pub ⟨"offer", "vo"⟩,
        Effect.signalJoin "s1" "u1" ⟨"offer", "vo"⟩], none)
  ∧ Join ⟨Except.error (Err.engine "boom"), none, none⟩
      ({ uid := "u1" } : Client) "s1" =
      ([Effect.createOffer Leg.pub], some (Err.engine "boom")) :=
  ⟨(Join_steps ⟨Except.ok ⟨"offer", "vo"⟩, none, none⟩
      ({ uid := "u1" } : Client) "s1").2.2 ⟨"offer", "vo"⟩ rfl rfl,
   (Join_steps ⟨Except.error (Err.engine "boom"), none, none⟩
      ({ uid := "u1" } : Client) "s1").1 (Err.engine "boom") rfl⟩

/-- C5 counterexample: with offer creation failing, the renegotiation
step (`onNegotiationNeeded`, as invoked by Publish/UnPublish/
PublishFile) still transmits an offer to the coordinator — the claim
that no offer is transmitted after a failed create-offer is false. -/
theorem onNegotiationNeeded_cex :
    Effect.signalOffer { sdpType := "", sdp := "" } ∈
      onNegotiationNeeded
        { createOffer := Except.error (Err.engine "fail"),
          setLocalDescriptionErr := none }
        ({ } : Client) := by
  simp [onNegotiationNeeded, onnOffer, onnCreateLog, logFx]

/-- C5 amended: a failing `AddTrack` aborts `Publish` and surfaces that
error with no offer created or transmitted; but inside the
renegotiation step itself (`onNegotiationNeeded`), failures of offer
creation or of setting the local description are only logged — the
offer (the zero value when creation failed) is still transmitted to the
coordinator. -/
theorem publish_error_handling (pe : PublishEnv) (oe : OnnEnv) (c : Client)
    (t : TrackLocal) (ts : List TrackLocal) (e : Err)
    (h : pe.addTrackErr t = some e) :
    Publish pe c (t :: ts) =
      ([Effect.addTrack t, Effect.logged e], some e)
  ∧ (∀ o, Effect.signalOffer o ∉ (Publish pe c (t :: ts)).1)
  ∧ Effect.signalOffer (onnOffer oe) ∈ onNegotiationNeeded oe c := by
  refine ⟨?_, ?_, ?_⟩
  · simp [Publish, publishLoop, h]
  · intro o
    simp [Publish, publishLoop, h]
  · simp [onNegotiationNeeded]

/-- Witness for C5 (amended) at a concrete input. -/
theorem publish_error_handling_witness :
    Publish
      ⟨fun _ => some (Err.engine "add fail"), ⟨Except.ok ⟨"o", "v"⟩, none⟩⟩
      ({ } : Client) ["t1"] =
      ([Effect.addTrack "t1", Effect.logged (Err.engine "add fail")],
       some (Err.engine "add fail")) :=
  (publish_error_handling
    ⟨fun _ => some (Err.engine "add fail"), ⟨Except.ok ⟨"o", "v"⟩, none⟩⟩
    ⟨Except.ok ⟨"o", "v"⟩, none⟩ ({ } : Client) "t1" [] (Err.engine "add fail")
    rfl).1

/-- C6: `PublishFile` on a path whose extension is not `.webm` returns
`errInvalidFile` with the client unchanged and an empty effect trace: no
producer constructed, no track added, no renegotiation offer created or
sent. -/
theorem publishFile_rejects_non_webm (env : PublishFileEnv) (c : Client)
    (file : String) (video audio : Bool)
    (h : ¬ filepathExt file = ".webm") :
    PublishFile env c file video audio = (c, [], some Err.errInvalidFile) := by
  simp [PublishFile, h]

/-- Witness for C6 at a concrete input: an `.mp4` path. -/
theorem publishFile_rejects_non_webm_witness :
    PublishFile
      ⟨Except.ok "vtk", Except.ok "atk", fun _ => none,
       ⟨Except.ok ⟨"o", "v"⟩, none⟩⟩
      ({ } : Client) "video.mp4" true true =
      ({ }, [], some Err.errInvalidFile) :=
  publishFile_rejects_non_webm
    ⟨Except.ok "vtk", Except.ok "atk", fun _ => none,
     ⟨Except.ok ⟨"o", "v"⟩, none⟩⟩
    ({ } : Client) "video.mp4" true true (by decide)

/-- C7: `trackEvent` with no user handler registered: a `TrackAdd` event
produces exactly one subscribe request carrying the event's track ids in
listed order with `enabled = true`; a `TrackRemove` or `TrackNone` event
produces no effect. -/
theorem trackEvent_default_policy (c : Client) (event : TrackEvent)
    (h : c.hasOnTrackEvent = false) :
    (event.State = TrackState.TrackAdd →
      (trackEvent c event).2 =
        [Effect.signalSubscribe (event.Tracks.map Track.ID) true])
  ∧ (¬ event.State = TrackState.TrackAdd → (trackEvent c event).2 = []) := by
  constructor
  · intro hs
    simp [trackEvent, defaultTrackEventFx, h, hs]
  · intro hs
    simp [trackEvent, defaultTrackEventFx, h, hs]

/-- Witness for C7 at a concrete input: a track-added event with two
track identifiers and no user handler. -/
theorem trackEvent_default_policy_witness :
    (trackEvent ({ } : Client)
      { State := TrackState.TrackAdd, Uid := "u2",
        Tracks := [{ ID := "t1", StreamID := "s", Kind := "video",
                     Muted := false, Simulcast := [] },
                   { ID := "t2", StreamID := "s", Kind := "audio",
                     Muted := false, Simulcast := [] }] }).2 =
      [Effect.signalSubscribe ["t1", "t2"] true] := by
  have h := (trackEvent_default_policy ({ } : Client)
      { State := TrackState.TrackAdd, Uid := "u2",
        Tracks := [{ ID := "t1", StreamID := "s", Kind := "video",
                     Muted := false, Simulcast := [] },
                   { ID := "t2", StreamID := "s", Kind := "audio",
                     Muted := false, Simulcast := [] }] } rfl).1 rfl
  simpa using h

/-- C10: in `PublishFile` on a `.webm` path with video requested, a
failing producer `GetVideoTrack` whose following `AddTrack` succeeds is
silently discarded: the call returns nil and still starts the producer
and transmits a renegotiation offer. -/
theorem publishFile_discards_getTrack_error (env : PublishFileEnv)
    (c : Client) (file : String) ( audio : Bool) (e : Err)
    (hext : filepathExt file = ".webm")
    (hv : env.getVideoTrack = Except.error e)
    (hadd : ∀ t, env.addTrackErr t = none) :
    (PublishFile env c file true audio).2.2 = none
  ∧ Effect.producerStart ∈ (PublishFile env c file true audio).2.1
  ∧ Effect.signalOffer (onnOffer env.onn) ∈
      (PublishFile env c file true audio).2.1 := by
  cases haud : audio <;>
    refine ⟨?_, ?_, ?_⟩ <;>
      simp [PublishFile, publishFileTail, hext, hadd, onNegotiationNeeded,
            pfVideoTrack, hv]

/-- Witness for C10 at a concrete input: `GetVideoTrack` fails,
`AddTrack` succeeds, and `PublishFile "a.webm"` completes with nil. -/
theorem publishFile_discards_getTrack_error_witness :
    (PublishFile
      ⟨Except.error (Err.engine "no video"), Except.ok "atk", fun _ => none,
       ⟨Except.ok ⟨"o", "v"⟩, none⟩⟩
      ({ } : Client) "a.webm" true false).2.2 = none
  ∧ Effect.producerStart ∈
      (PublishFile
        ⟨Except.error (Err.engine "no video"), Except.ok "atk", fun _ => none,
         ⟨Except.ok ⟨"o", "v"⟩, none⟩⟩
        ({ } : Client) "a.webm" true false).2.1
  ∧ Effect.signalOffer
      (onnOffer ⟨Except.ok ⟨"o", "v"⟩, none⟩) ∈
      (PublishFile
        ⟨Except.error (Err.engine "no video"), Except.ok "atk", fun _ => none,
         ⟨Except.ok ⟨"o", "v"⟩, none⟩⟩
        ({ } : Client) "a.webm" true false).2.1 :=
  publishFile_discards_getTrack_error
    ⟨Except.error (Err.engine "no video"), Except.ok "atk", fun _ => none,
     ⟨Except.ok ⟨"o", "v"⟩, none⟩⟩
    ({ } : Client) "a.webm" false (Err.engine "no video")
    (by decide) rfl (fun _ => rfl)

end IonSdk
